import Mathlib

/-!
Shallow embedding of `openrouter_model_checker.py`.

The script fetches a model catalog from an HTTP endpoint, reports on a
semicolon-separated list of queried model names (preferring free variants),
filters the free models, and renders them as a table sorted by supplier.

Python strings are embedded as `String` (compared through their `List Char`
code-point data, which matches Python's code-point lexicographic comparison);
dictionaries with optional keys become structures with `Option` fields;
the single HTTP request is embedded as a datatype of request outcomes.
Printing is embedded as the data that would be printed (status lines and
table rows), dropping only the fixed-width formatting.
-/

/-- One element of the API catalog: a Python dict from which the script reads
the optional keys `id` and `context_length` (`model.get('id', ...)`,
`model.get('context_length', 0)`). -/
structure ModelRecord where
  id : Option String
  context_length : Option Nat
deriving DecidableEq

/-- Python `needle in hay` on strings: case-sensitive unanchored substring. -/
def strContains (hay needle : String) : Bool :=
  decide (needle.data <:+: hay.data)

/-- Python `s.endswith(suffix)`. -/
def strEndsWith (s suffix : String) : Bool :=
  suffix.data.isSuffixOf s.data

/-- The configuration constant `MODELS_TO_CHECK` of the script. -/
def MODELS_TO_CHECK : String := "gpt-oss-20b;deepseek-r1;qwen"

/-- The configuration constant `API_URL` of the script. -/
def API_URL : String := "https://openrouter.ai/api/v1/models"

/-- Python `s.split(sep)` for a one-character separator `sep`:
`''.split('/') = ['']`, `'a//b'.split('/') = ['a', '', 'b']`. -/
def splitOnChar (c : Char) : List Char → List (List Char)
  | [] => [[]]
  | x :: xs =>
    if x = c then [] :: splitOnChar c xs
    else
      match splitOnChar c xs with
      | [] => [[x]]
      | y :: ys => (x :: y) :: ys

/-- Python `s.strip()`: drop leading and trailing whitespace. -/
def stripChars (l : List Char) : List Char :=
  ((l.dropWhile Char.isWhitespace).reverse.dropWhile Char.isWhitespace).reverse

/-- `[name.strip() for name in models_to_check_str.split(';')]` -/
def parseQueries (s : String) : List String :=
  (splitOnChar ';' s.data).map (fun cs => String.mk (stripChars cs))

/-- `name in model.get('id', '')`: does the record match query `name`? -/
def matchesB (name : String) (m : ModelRecord) : Bool :=
  strContains (m.id.getD "") name

/-- `model.get('id', '').endswith(':free')`: is the record a free model? -/
def isFreeB (m : ModelRecord) : Bool :=
  strEndsWith (m.id.getD "") ":free"

/-- Loop body of the match-collecting loop in `check_specific_models`:
append a matching record to the free or the non-free accumulator. -/
def matchStep (name : String) (acc : List ModelRecord × List ModelRecord)
    (model : ModelRecord) : List ModelRecord × List ModelRecord :=
  let model_id := model.id.getD ""
  if strContains model_id name then
    if strEndsWith model_id ":free" then (acc.1 ++ [model], acc.2)
    else (acc.1, acc.2 ++ [model])
  else acc

/-- The match-collecting loop of `check_specific_models`: scan `all_models`
once, collecting `(found_free_models, found_non_free_models)`. -/
def collectMatches (name : String) (all_models : List ModelRecord) :
    List ModelRecord × List ModelRecord :=
  all_models.foldl (matchStep name) ([], [])

/-- The status line printed for one query. -/
inductive QueryStatus where
  | free
  | notFree
  | notFound
deriving DecidableEq

/-- What `check_specific_models` prints for one query: the status line and
the list of records whose `(id, context_length)` rows are listed under it. -/
structure QueryReport where
  status : QueryStatus
  listed : List ModelRecord
deriving DecidableEq

/-- The per-query branch of `check_specific_models`: free matches take
priority, then non-free matches, else "not found" with no list. -/
def queryReport (name : String) (all_models : List ModelRecord) : QueryReport :=
  let found := collectMatches name all_models
  if found.1.isEmpty = false then ⟨QueryStatus.free, found.1⟩
  else if found.2.isEmpty = false then ⟨QueryStatus.notFree, found.2⟩
  else ⟨QueryStatus.notFound, []⟩

/-- Everything `check_specific_models` prints: the "cannot perform check"
message when the input is falsy (`None` or the empty list), else one report
per parsed query name. -/
structure CheckOut where
  noDataMsg : Bool
  reports : List (String × QueryReport)
deriving DecidableEq

/-- `check_specific_models(models_to_check_str, all_models)`. -/
def check_specific_models (models_to_check_str : String)
    (all_models : Option (List ModelRecord)) : CheckOut :=
  if (all_models.getD []).isEmpty then ⟨true, []⟩
  else ⟨false, (parseQueries models_to_check_str).map
    (fun name => (name, queryReport name (all_models.getD [])))⟩

/-- `filter_free_models(models)`: the guard for falsy input, then the
accumulating loop over `models`. -/
def filter_free_models (models : List ModelRecord) : List ModelRecord :=
  if models.isEmpty then []
  else models.foldl
    (fun free_models model =>
      if isFreeB model then free_models ++ [model] else free_models) []

/-- The sort key `lambda m: (m.get('id', 'z').split('/')[0], m.get('id', ''))`
used by `display_free_models_with_supplier`, on code-point data. -/
def sortKey (m : ModelRecord) : List Char × List Char :=
  ((splitOnChar '/' (m.id.getD "z").data).headD [], (m.id.getD "").data)

/-- Python's tuple-of-strings comparison of the sort keys: lexicographic on
the pair, code-point lexicographic within each component. -/
def keyRel (m₁ m₂ : ModelRecord) : Prop :=
  Prod.Lex (· < ·) (· ≤ ·) (sortKey m₁) (sortKey m₂)

instance : DecidableRel keyRel :=
  fun m₁ m₂ => Prod.Lex.decidable _ _ (sortKey m₁) (sortKey m₂)

instance : IsTrans ModelRecord keyRel :=
  ⟨fun _ _ _ h₁ h₂ => Prod.Lex.trans h₁ h₂⟩

instance : IsTotal ModelRecord keyRel :=
  ⟨fun m₁ m₂ => IsTotal.total (sortKey m₁) (sortKey m₂)⟩

/-- `sorted(models, key=...)`: a stable sort by the key comparison. Python's
sort is a stable mergesort; insertion sort by the same total preorder is also
stable, hence produces the same list. -/
def sorted_models (models : List ModelRecord) : List ModelRecord :=
  List.insertionSort keyRel models

/-- One printed table row of `display_free_models_with_supplier`:
supplier column, model-id column, and the context length being formatted. -/
structure Row where
  supplier : String
  model_id : String
  context_length : Nat
deriving DecidableEq

/-- The row printed for one record: `model_id = m.get('id', 'N/A')`,
`supplier = model_id.split('/')[0] if '/' in model_id else 'N/A'`. -/
def rowOf (m : ModelRecord) : Row :=
  let model_id := m.id.getD "N/A"
  ⟨if model_id.data.contains '/' then
      String.mk ((splitOnChar '/' model_id.data).headD [])
    else "N/A",
   model_id,
   m.context_length.getD 0⟩

/-- Everything `display_free_models_with_supplier` prints: the "no free
models found" message on falsy input, else the table rows. -/
structure DisplayOut where
  noneFoundMsg : Bool
  rows : List Row
deriving DecidableEq

/-- `display_free_models_with_supplier(models)`. -/
def display_free_models_with_supplier (models : List ModelRecord) : DisplayOut :=
  if models.isEmpty then ⟨true, []⟩
  else ⟨false, (sorted_models models).map rowOf⟩

/-- Outcome of the one `requests.get(API_URL, timeout=15)` call together
with response validation, as seen by `fetch_models`: a connection/timeout
failure, a non-2xx status (raised by `raise_for_status`), an unparseable
body, or a parsed JSON body whose optional `data` field is embedded as an
`Option`al record list. -/
inductive FetchOutcome where
  | connectionError
  | httpStatusError
  | jsonDecodeError
  | body (dataField : Option (List ModelRecord))
deriving DecidableEq

/-- What `fetch_models` produces: its return value (`None` embedded as
`none`) and whether it printed an error diagnostic. -/
structure FetchOut where
  result : Option (List ModelRecord)
  errorMsg : Bool
deriving DecidableEq

/-- `fetch_models()`: every failure case returns `None` after printing a
diagnostic; on success the `data` field is returned unmodified. -/
def fetch_models : FetchOutcome → FetchOut
  | FetchOutcome.connectionError => ⟨none, true⟩
  | FetchOutcome.httpStatusError => ⟨none, true⟩
  | FetchOutcome.jsonDecodeError => ⟨none, true⟩
  | FetchOutcome.body none => ⟨none, true⟩
  | FetchOutcome.body (some d) => ⟨some d, false⟩

/-- Trace of the `__main__` block: the fetched value, whether each of the
two report functions was invoked, and their outputs when invoked. -/
structure MainOut where
  fetched : Option (List ModelRecord)
  calledCheck : Bool
  calledDisplay : Bool
  checkOut : Option CheckOut
  displayOut : Option DisplayOut
deriving DecidableEq

/-- The `__main__` block: fetch once, then run both report steps only under
`if all_models_data:` (falsy for `None` and for the empty list). -/
def mainRun (o : FetchOutcome) : MainOut :=
  let all_models_data := (fetch_models o).result
  if (all_models_data.getD []).isEmpty then
    ⟨all_models_data, false, false, none, none⟩
  else
    ⟨all_models_data, true, true,
     some (check_specific_models MODELS_TO_CHECK all_models_data),
     some (display_free_models_with_supplier
       (filter_free_models (all_models_data.getD [])))⟩

/-- Catalog records used as concrete test inputs. -/
def mFree : ModelRecord := ⟨some "openai/gpt-oss-20b:free", some 131072⟩

def mPaid : ModelRecord := ⟨some "openai/gpt-oss-20b", some 131072⟩

def mDeep : ModelRecord := ⟨some "deepseek/deepseek-r1", some 64000⟩

def mNoId : ModelRecord := ⟨none, none⟩

example : filter_free_models [mFree, mPaid, mDeep] = [mFree] := by decide

example : queryReport "gpt-oss-20b" [mFree, mPaid] = ⟨QueryStatus.free, [mFree]⟩ := by decide

example : queryReport "deepseek-r1" [mFree, mPaid, mDeep] = ⟨QueryStatus.notFree, [mDeep]⟩ := by decide

example : queryReport "qwen" [mFree, mPaid, mDeep] = ⟨QueryStatus.notFound, []⟩ := by decide

example : parseQueries MODELS_TO_CHECK = ["gpt-oss-20b", "deepseek-r1", "qwen"] := by decide

example : parseQueries "a;;b" = ["a", "", "b"] := by decide

example :
    display_free_models_with_supplier [⟨some "acme/x:free", some 1⟩, ⟨some "bbb:free", some 2⟩] =
      ⟨false, [⟨"acme", "acme/x:free", 1⟩, ⟨"N/A", "bbb:free", 2⟩]⟩ := by decide

example :
    display_free_models_with_supplier [mDeep, mFree] =
      ⟨false, [⟨"deepseek", "deepseek/deepseek-r1", 64000⟩,
               ⟨"openai", "openai/gpt-oss-20b:free", 131072⟩]⟩ := by decide

example : mainRun FetchOutcome.connectionError = ⟨none, false, false, none, none⟩ := by decide

/-! Helper lemmas characterising the accumulating loops and split. -/

theorem filter_free_foldl (l acc : List ModelRecord) :
    l.foldl
      (fun free_models model =>
        if isFreeB model then free_models ++ [model] else free_models) acc
      = acc ++ l.filter isFreeB := by
  induction l generalizing acc with
  | nil => simp
  | cons m l ih =>
    simp only [List.foldl_cons, List.filter_cons]
    cases h : isFreeB m <;> simp [h, ih]

theorem filter_free_models_eq (l : List ModelRecord) :
    filter_free_models l = l.filter isFreeB := by
  unfold filter_free_models
  cases l with
  | nil => simp
  | cons m l => simpa using filter_free_foldl (m :: l) []

theorem matchStep_eq (name : String) (acc : List ModelRecord × List ModelRecord)
    (m : ModelRecord) :
    matchStep name acc m =
      (if matchesB name m && isFreeB m then (acc.1 ++ [m], acc.2)
       else if matchesB name m && !isFreeB m then (acc.1, acc.2 ++ [m])
       else acc) := by
  unfold matchStep matchesB isFreeB
  cases h₁ : strContains (m.id.getD "") name <;>
    cases h₂ : strEndsWith (m.id.getD "") ":free" <;> simp [h₁, h₂]

theorem collect_foldl (name : String) (l : List ModelRecord)
    (acc : List ModelRecord × List ModelRecord) :
    l.foldl (matchStep name) acc =
      (acc.1 ++ l.filter (fun m => matchesB name m && isFreeB m),
       acc.2 ++ l.filter (fun m => matchesB name m && !isFreeB m)) := by
  induction l generalizing acc with
  | nil => simp
  | cons m l ih =>
    rw [List.foldl_cons, matchStep_eq]
    cases h₁ : matchesB name m <;> cases h₂ : isFreeB m <;>
      simp [h₁, h₂, ih, List.filter_cons]

theorem collectMatches_eq (name : String) (l : List ModelRecord) :
    collectMatches name l =
      (l.filter (fun m => matchesB name m && isFreeB m),
       l.filter (fun m => matchesB name m && !isFreeB m)) := by
  unfold collectMatches
  simp [collect_foldl]

theorem splitOnChar_head (c : Char) (l : List Char) :
    ∃ ys, splitOnChar c l = l.takeWhile (fun x => x != c) :: ys := by
  induction l with
  | nil => exact ⟨[], rfl⟩
  | cons x xs ih =>
    by_cases hx : x = c
    · subst hx
      exact ⟨splitOnChar x xs, by simp [splitOnChar]⟩
    · obtain ⟨ys, hys⟩ := ih
      exact ⟨ys, by simp [splitOnChar, hx, hys]⟩

theorem splitOnChar_headD (c : Char) (l : List Char) :
    (splitOnChar c l).headD [] = l.takeWhile (fun x => x != c) := by
  obtain ⟨ys, h⟩ := splitOnChar_head c l
  rw [h]
  rfl

theorem splitOnChar_head_getD (c : Char) (l : List Char) :
    (splitOnChar c l).head?.getD [] = l.takeWhile (fun x => x != c) := by
  obtain ⟨ys, h⟩ := splitOnChar_head c l
  rw [h]
  rfl

theorem matchesB_empty (m : ModelRecord) : matchesB "" m = true := by
  unfold matchesB strContains
  simp

theorem filter_isEmpty_eq_not_any {α : Type} (p : α → Bool) (l : List α) :
    (l.filter p).isEmpty = !l.any p := by
  induction l with
  | nil => rfl
  | cons m l ih => cases h : p m <;> simp [List.filter_cons, h, ih]

theorem rowOf_pair_eq_sortKey (m : ModelRecord) (i : String) (hm : m.id = some i)
    (hc : i.data.contains '/' = true) :
    ((rowOf m).supplier.data, (rowOf m).model_id.data) = sortKey m := by
  unfold rowOf sortKey
  rw [hm]
  have h' : '/' ∈ i.data := by simpa using hc
  simp [hc, h']

/-! Claim theorems. -/

/-- Claim C1: for every query substring and record list, `check_specific_models`
reports per query as follows: if the free matches are non-empty the status is
"free" and exactly the free matches are listed; otherwise if some match is
non-free the status is "not free" and exactly the non-free matches are listed;
otherwise the status is "not found" and nothing is listed. -/
theorem claim1_selection_policy (name : String) (l : List ModelRecord) :
    (l.filter (fun m => matchesB name m && isFreeB m) ≠ [] →
      queryReport name l =
        ⟨QueryStatus.free, l.filter (fun m => matchesB name m && isFreeB m)⟩) ∧
    (l.filter (fun m => matchesB name m && isFreeB m) = [] →
      l.filter (fun m => matchesB name m && !isFreeB m) ≠ [] →
      queryReport name l =
        ⟨QueryStatus.notFree, l.filter (fun m => matchesB name m && !isFreeB m)⟩) ∧
    (l.filter (fun m => matchesB name m && isFreeB m) = [] →
      l.filter (fun m => matchesB name m && !isFreeB m) = [] →
      queryReport name l = ⟨QueryStatus.notFound, []⟩) := by
  have e := collectMatches_eq name l
  refine ⟨fun h₁ => ?_, fun h₁ h₂ => ?_, fun h₁ h₂ => ?_⟩
  · simp [queryReport, e, h₁]
  · simp [queryReport, e, h₁, h₂]
  · simp [queryReport, e, h₁, h₂]

theorem claim1_witness :
    queryReport "gpt-oss-20b" [mFree, mPaid] =
      ⟨QueryStatus.free,
        [mFree, mPaid].filter (fun m => matchesB "gpt-oss-20b" m && isFreeB m)⟩ ∧
    queryReport "deepseek-r1" [mPaid, mDeep] =
      ⟨QueryStatus.notFree,
        [mPaid, mDeep].filter (fun m => matchesB "deepseek-r1" m && !isFreeB m)⟩ ∧
    queryReport "qwen" [mPaid] = ⟨QueryStatus.notFound, []⟩ :=
  ⟨(claim1_selection_policy "gpt-oss-20b" [mFree, mPaid]).1 (by decide),
   (claim1_selection_policy "deepseek-r1" [mPaid, mDeep]).2.1 (by decide) (by decide),
   (claim1_selection_policy "qwen" [mPaid]).2.2 (by decide) (by decide)⟩

/-- Claim C2: `fetch_models` returns `None` and prints a diagnostic in exactly
the four failure cases (connection/timeout error, non-2xx status, unparseable
body, missing `data` field); in every other case it returns the value of the
`data` field unmodified and prints no diagnostic. -/
theorem claim2_fetch_models_cases (o : FetchOutcome) :
    ((fetch_models o).result = none ∧ (fetch_models o).errorMsg = true ↔
      o = FetchOutcome.connectionError ∨ o = FetchOutcome.httpStatusError ∨
        o = FetchOutcome.jsonDecodeError ∨ o = FetchOutcome.body none) ∧
    (∀ d : List ModelRecord,
      fetch_models (FetchOutcome.body (some d)) = ⟨some d, false⟩) := by
  refine ⟨?_, fun d => rfl⟩
  rcases o with _ | _ | _ | (_ | d) <;> simp [fetch_models]

/-- Claim C3 (counterexample): when the fetch fails, `__main__` invokes
NEITHER downstream report function — everything is guarded by
`if all_models_data:` — so their "no data"/"none found" messages are not
printed, contrary to the claim that both functions are still invoked. -/
theorem claim3_counterexample :
    (mainRun FetchOutcome.connectionError).calledCheck = false ∧
    (mainRun FetchOutcome.connectionError).calledDisplay = false ∧
    (mainRun FetchOutcome.connectionError).checkOut = none ∧
    (mainRun FetchOutcome.connectionError).displayOut = none :=
  ⟨rfl, rfl, rfl, rfl⟩

/-- Claim C3 (amended): when `fetch_models` returns the absent-data signal,
`__main__` skips both downstream report functions entirely, so no table rows
are rendered; each downstream function, if it were invoked on the
absent/empty-data signal, prints its own message and renders no rows. -/
theorem claim3_fetch_failure_skips_reports (o : FetchOutcome)
    (h : (fetch_models o).result = none) :
    (mainRun o).calledCheck = false ∧ (mainRun o).calledDisplay = false ∧
    (mainRun o).checkOut = none ∧ (mainRun o).displayOut = none ∧
    (∀ s : String, check_specific_models s none = ⟨true, []⟩) ∧
    display_free_models_with_supplier [] = ⟨true, []⟩ := by
  refine ⟨?_, ?_, ?_, ?_, fun s => rfl, rfl⟩ <;> simp [mainRun, h]

theorem claim3_witness :
    (mainRun FetchOutcome.jsonDecodeError).calledCheck = false ∧
    (mainRun FetchOutcome.jsonDecodeError).calledDisplay = false ∧
    (mainRun FetchOutcome.jsonDecodeError).checkOut = none ∧
    (mainRun FetchOutcome.jsonDecodeError).displayOut = none ∧
    check_specific_models MODELS_TO_CHECK none = ⟨true, []⟩ ∧
    display_free_models_with_supplier [] = ⟨true, []⟩ :=
  ⟨(claim3_fetch_failure_skips_reports FetchOutcome.jsonDecodeError rfl).1,
   (claim3_fetch_failure_skips_reports FetchOutcome.jsonDecodeError rfl).2.1,
   (claim3_fetch_failure_skips_reports FetchOutcome.jsonDecodeError rfl).2.2.1,
   (claim3_fetch_failure_skips_reports FetchOutcome.jsonDecodeError rfl).2.2.2.1,
   (claim3_fetch_failure_skips_reports FetchOutcome.jsonDecodeError rfl).2.2.2.2.1
     MODELS_TO_CHECK,
   (claim3_fetch_failure_skips_reports FetchOutcome.jsonDecodeError rfl).2.2.2.2.2⟩

/-- Claim C4 (counterexample): the printed (supplier, id) pairs of adjacent
rows are NOT always lexicographically ordered: for the free records
`acme/x:free` and `bbb:free` the rows print in this order, but the second
supplier column is the sentinel "N/A", and ("acme", ...) ≰ ("N/A", ...)
since 'a' > 'N' in code points. -/
theorem claim4_counterexample :
    (display_free_models_with_supplier
        [⟨some "acme/x:free", some 1⟩, ⟨some "bbb:free", some 2⟩]).rows =
      [⟨"acme", "acme/x:free", 1⟩, ⟨"N/A", "bbb:free", 2⟩] ∧
    ¬ Prod.Lex (· < ·) (· ≤ ·)
        (("acme" : String).data, ("acme/x:free" : String).data)
        (("N/A" : String).data, ("bbb:free" : String).data) := by
  exact ⟨by decide, by decide⟩

/-- Claim C4 (amended): the rows are sorted ascending lexicographically by the
code's sort key — the pair (first path segment of `id`, with the sentinel 'z'
substituted when `id` is absent; full `id`, with "" substituted when absent) —
and whenever every record's `id` is present and contains '/', the printed
(supplier, id) pair of each row coincides with its sort key, so for any two
adjacent printed rows the prior (supplier, id) pair is lexicographically ≤
the next. -/
theorem claim4_rows_sorted (l : List ModelRecord) :
    List.Pairwise keyRel (sorted_models l) ∧
    ((∀ m ∈ l, m.id ≠ none ∧ (m.id.getD "").data.contains '/' = true) →
      List.Pairwise
        (fun r r' : Row =>
          Prod.Lex (· < ·) (· ≤ ·) (r.supplier.data, r.model_id.data)
            (r'.supplier.data, r'.model_id.data))
        (display_free_models_with_supplier l).rows) := by
  constructor
  · exact List.sorted_insertionSort keyRel l
  · intro h
    unfold display_free_models_with_supplier
    by_cases hl : l.isEmpty = true
    · simp [hl]
    · simp only [hl]
      rw [if_neg (by simp [hl])]
      rw [List.pairwise_map]
      have hs : List.Pairwise keyRel (sorted_models l) :=
        List.sorted_insertionSort keyRel l
      refine hs.imp_of_mem ?_
      intro a b ha hb hab
      have ha' : a ∈ l := ((List.perm_insertionSort keyRel l).mem_iff).1 ha
      have hb' : b ∈ l := ((List.perm_insertionSort keyRel l).mem_iff).1 hb
      obtain ⟨hane, hac⟩ := h a ha'
      obtain ⟨hbne, hbc⟩ := h b hb'
      obtain ⟨ia, hia⟩ := Option.ne_none_iff_exists'.mp hane
      obtain ⟨ib, hib⟩ := Option.ne_none_iff_exists'.mp hbne
      rw [hia] at hac
      rw [hib] at hbc
      have ea := rowOf_pair_eq_sortKey a ia hia (by simpa using hac)
      have eb := rowOf_pair_eq_sortKey b ib hib (by simpa using hbc)
      rw [ea, eb]
      exact hab

theorem claim4_witness :
    List.Pairwise
      (fun r r' : Row =>
        Prod.Lex (· < ·) (· ≤ ·) (r.supplier.data, r.model_id.data)
          (r'.supplier.data, r'.model_id.data))
      (display_free_models_with_supplier [mFree, mDeep]).rows :=
  (claim4_rows_sorted [mFree, mDeep]).2 (by decide)

/-- Claim C5: `filter_free_models` returns exactly the records whose `id`
ends with the literal suffix ":free", in their original order (i.e. it is the
order-preserving filter by that predicate), and the empty list for empty
input. -/
theorem claim5_filter_free_models (l : List ModelRecord) :
    filter_free_models l =
      l.filter (fun m => strEndsWith (m.id.getD "") ":free") ∧
    filter_free_models [] = [] :=
  ⟨filter_free_models_eq l, rfl⟩

/-- Claim C6: `filter_free_models` is idempotent: filtering its own output
yields the same list. -/
theorem claim6_filter_free_idempotent (l : List ModelRecord) :
    filter_free_models (filter_free_models l) = filter_free_models l := by
  simp [filter_free_models_eq, List.filter_filter]

/-- Claim C7: every record collected by `check_specific_models` as a match
for query `name` — in either partition — has an `id` (defaulted to "") that
contains `name` as a case-sensitive unanchored substring, and each partition
equals the order-preserving filter of the scan, so scan order is preserved
within each partition. -/
theorem claim7_match_soundness (name : String) (l : List ModelRecord) :
    (∀ m ∈ (collectMatches name l).1, name.data <:+: (m.id.getD "").data) ∧
    (∀ m ∈ (collectMatches name l).2, name.data <:+: (m.id.getD "").data) ∧
    (collectMatches name l).1 =
      l.filter (fun m => matchesB name m && isFreeB m) ∧
    (collectMatches name l).2 =
      l.filter (fun m => matchesB name m && !isFreeB m) := by
  rw [collectMatches_eq]
  refine ⟨?_, ?_, rfl, rfl⟩ <;>
  · intro m hm
    simp only [List.mem_filter, Bool.and_eq_true] at hm
    exact of_decide_eq_true hm.2.1

theorem claim7_witness :
    (("gpt-oss" : String).data <:+: (mFree.id.getD "").data) ∧
    (collectMatches "gpt-oss" [mFree, mPaid]).1 =
      [mFree, mPaid].filter (fun m => matchesB "gpt-oss" m && isFreeB m) :=
  ⟨(claim7_match_soundness "gpt-oss" [mFree, mPaid]).1 mFree (by decide),
   (claim7_match_soundness "gpt-oss" [mFree, mPaid]).2.2.1⟩

/-- Claim C8: every printed row's supplier column is the substring of the
shown id before the first '/' (the id shown is the record's `id`, defaulted
to "N/A"), or the sentinel "N/A" when it contains no '/'. -/
theorem claim8_supplier_column (l : List ModelRecord) :
    ∀ r ∈ (display_free_models_with_supplier l).rows,
      (∃ m ∈ l, r.model_id = m.id.getD "N/A" ∧
        r.context_length = m.context_length.getD 0) ∧
      r.supplier =
        (if r.model_id.data.contains '/' then
          String.mk (r.model_id.data.takeWhile (fun ch => ch != '/'))
        else "N/A") := by
  intro r hr
  unfold display_free_models_with_supplier at hr
  by_cases hl : l.isEmpty = true
  · simp [hl] at hr
  · rw [if_neg (by simp [hl])] at hr
    simp only [List.mem_map] at hr
    obtain ⟨m, hm, hrm⟩ := hr
    have hml : m ∈ l := ((List.perm_insertionSort keyRel l).mem_iff).1 hm
    subst hrm
    exact ⟨⟨m, hml, rfl, rfl⟩, by simp [rowOf, splitOnChar_headD, splitOnChar_head_getD]⟩

theorem claim8_witness :
    (∃ m ∈ [mFree],
      (⟨"openai", "openai/gpt-oss-20b:free", 131072⟩ : Row).model_id =
        m.id.getD "N/A" ∧
      (⟨"openai", "openai/gpt-oss-20b:free", 131072⟩ : Row).context_length =
        m.context_length.getD 0) ∧
    (⟨"openai", "openai/gpt-oss-20b:free", 131072⟩ : Row).supplier =
      (if (⟨"openai", "openai/gpt-oss-20b:free", 131072⟩ : Row).model_id.data.contains '/' then
        String.mk
          ((⟨"openai", "openai/gpt-oss-20b:free", 131072⟩ : Row).model_id.data.takeWhile
            (fun ch => ch != '/'))
      else "N/A") :=
  claim8_supplier_column [mFree] ⟨"openai", "openai/gpt-oss-20b:free", 131072⟩
    (by decide)

/-- Claim C9: the empty query substring (which splitting and trimming the
configuration string produces from leading/trailing/double semicolons, e.g.
`parseQueries "a;;b"`) matches every record, so on a non-empty record list
the reported branch for the empty query is "free" exactly when some record's
id ends with ":free", and "not free" otherwise. -/
theorem claim9_empty_query (l : List ModelRecord) :
    (∀ m ∈ l, matchesB "" m = true) ∧
    parseQueries "a;;b" = ["a", "", "b"] ∧
    (l ≠ [] →
      (queryReport "" l).status =
        (if l.any isFreeB then QueryStatus.free else QueryStatus.notFree)) := by
  refine ⟨fun m _ => matchesB_empty m, by decide, fun hl => ?_⟩
  unfold queryReport
  rw [collectMatches_eq]
  simp only [matchesB_empty, Bool.true_and]
  rw [filter_isEmpty_eq_not_any, filter_isEmpty_eq_not_any]
  cases hany : l.any isFreeB with
  | true => simp [hany]
  | false =>
    have h2 : l.any (fun m => !isFreeB m) = true := by
      rcases l with _ | ⟨a, as⟩
      · exact absurd rfl hl
      · simp only [List.any_cons, Bool.or_eq_false_iff] at hany
        simp [List.any_cons, hany.1]
    simp [hany, h2]

theorem claim9_witness :
    matchesB "" mPaid = true ∧
    (queryReport "" [mPaid, mFree]).status =
      (if [mPaid, mFree].any isFreeB then QueryStatus.free
       else QueryStatus.notFree) :=
  ⟨(claim9_empty_query [mPaid, mFree]).1 mPaid (by decide),
   (claim9_empty_query [mPaid, mFree]).2.2 (by decide)⟩

/-- Claim C10: a record whose dict lacks the `id` key is treated by
`filter_free_models` and `check_specific_models` as having the empty-string
id: it is never included in the free set, and it matches a query substring
exactly when that substring is empty. (In the embedding both operations are
total functions, so neither raises.) -/
theorem claim10_missing_id (m : ModelRecord) (hm : m.id = none) :
    (∀ l : List ModelRecord, m ∉ filter_free_models l) ∧
    (∀ q : String, matchesB q m = true ↔ q = "") := by
  constructor
  · intro l hmem
    rw [filter_free_models_eq, List.mem_filter] at hmem
    have hf : isFreeB m = false := by
      unfold isFreeB
      rw [hm]
      decide
    rw [hf] at hmem
    exact absurd hmem.2 (by decide)
  · intro q
    constructor
    · intro hq
      unfold matchesB strContains at hq
      rw [hm] at hq
      have hinf := of_decide_eq_true hq
      have hd : q.data = [] := by simpa using hinf
      cases q with
      | mk d =>
        cases hd
        decide
    · intro hq
      subst hq
      exact matchesB_empty m

theorem claim10_witness :
    mNoId ∉ filter_free_models [mNoId, mFree] ∧
    (matchesB "qwen" mNoId = true ↔ "qwen" = "") :=
  ⟨(claim10_missing_id mNoId rfl).1 [mNoId, mFree],
   (claim10_missing_id mNoId rfl).2 "qwen"⟩
